import Mathlib

/-
Verification development for the Shopify sync worker (src/server.js).
The definitions below embed the data model and the operations of the worker;
the theorems that follow settle the specified properties about them.
-/

set_option autoImplicit false

/-! ## JavaScript number and parseFloat model

Money amounts arrive from the API as strings and are converted with the
JavaScript builtin parseFloat, which returns NaN when no numeric prefix
exists; parseFloat applied to undefined coerces it to the non-numeric
string "undefined" and therefore also returns NaN. -/

/-- A JavaScript number as used by the worker: either NaN or a rational value. -/
inductive JNum where
  | nan : JNum
  | val : Rat → JNum
deriving DecidableEq, Repr

/-- Numeric value of a list of decimal digit characters. -/
def digitsVal (ds : List Char) : Nat :=
  ds.foldl (fun a c => a * 10 + (c.toNat - 48)) 0

/-- Model of the JavaScript parseFloat builtin on a string: an optional sign,
integer digits and an optional fractional part are read from the front of the
string; if no digit is found the result is NaN. -/
def parseFloat (s : String) : JNum :=
  let cs := s.data
  let signed : Bool × List Char :=
    match cs with
    | '-' :: r => (true, r)
    | '+' :: r => (false, r)
    | _ => (false, cs)
  let ip := signed.2.takeWhile Char.isDigit
  let rest := signed.2.dropWhile Char.isDigit
  let fp : List Char :=
    match rest with
    | '.' :: r => r.takeWhile Char.isDigit
    | _ => []
  if ip = [] ∧ fp = [] then JNum.nan
  else
    let q : Rat := (digitsVal ip : Rat) + (digitsVal fp : Rat) / ((10 : Rat) ^ fp.length)
    JNum.val (if signed.1 then -q else q)

/-- parseFloat applied to a possibly-undefined string. -/
def parseFloatOpt : Option String → JNum
  | none => JNum.nan
  | some s => parseFloat s

/-- Last path segment of a global id string, as in id.split and pop
in the source. -/
def lastSegment (s : String) : String :=
  (s.splitOn "/").getLastD ""

/-! ## Paginated query with retry (shopifyGraphQLQuery, src/server.js lines 201-238)

One page request is a loop over attempts 0..retries.  Each attempt observes
one of four outcomes: the fetch call rejects, the HTTP response has a
non-success status (both throw inside the try block), the GraphQL payload
carries API-level errors (with or without a THROTTLED extension code), or the
query succeeds.  A throttled error below the retry ceiling sleeps
2^(attempt+1) seconds and continues; every other failure is thrown, caught by
the surrounding catch, and either re-thrown (when attempt = retries) or
retried after the same 2^(attempt+1) second backoff. -/

/-- Outcome of a single attempt of the page request. -/
inductive FetchOutcome where
  | netError : FetchOutcome
  | httpError : FetchOutcome
  | apiErrors (throttled : Bool) : FetchOutcome
  | success : FetchOutcome
deriving DecidableEq, Repr

/-- Result of the whole retry loop: success or a fatal re-throw, tagged with
the zero-based index of the attempt it happened on. -/
inductive QueryResult where
  | ok (attempt : Nat) : QueryResult
  | fatal (attempt : Nat) : QueryResult
deriving DecidableEq, Repr

/-- Number of attempts the loop performed, given its result. -/
def attemptsUsed : QueryResult → Nat
  | QueryResult.ok a => a + 1
  | QueryResult.fatal a => a + 1

/-- The retry loop of shopifyGraphQLQuery from a given attempt index.
Returns the result together with the list of backoff waits (milliseconds)
performed, in order.  A throttled API error below the ceiling waits inside
the try block and continues; any other failure is thrown, caught, and when
attempt is below retries waited on and retried, otherwise re-thrown as
fatal.  In both retry paths the wait is 2^(attempt+1) * 1000 milliseconds. -/
def queryGo (outcomes : Nat → FetchOutcome) (retries : Nat) (attempt : Nat) :
    QueryResult × List Nat :=
  if outcomes attempt = FetchOutcome.success then (QueryResult.ok attempt, [])
  else if h : attempt < retries then
    let r := queryGo outcomes retries (attempt + 1)
    (r.1, 2 ^ (attempt + 1) * 1000 :: r.2)
  else
    (QueryResult.fatal attempt, [])
termination_by retries - attempt

/-- shopifyGraphQLQuery: the retry loop started at attempt 0.
The source default for retries is 3. -/
def shopifyGraphQLQuery (outcomes : Nat → FetchOutcome) (retries : Nat) :
    QueryResult × List Nat :=
  queryGo outcomes retries 0

/-! ## Pagination accumulation (the do/while loops of the three sync stages)

Each stage runs: fetch a page, append its edges to the accumulated list,
and continue (after a fixed 500 ms inter-page delay) while the page reports
hasNextPage.  The environment is modelled as the list of pages the source
returns for the successive requests. -/

/-- One fetch result: the edges of the page, the has-more flag and the
continuation cursor. -/
structure Page (α : Type) where
  edges : List α
  hasNextPage : Bool
  endCursor : Option String

/-- The accumulation loop: consume pages, concatenating their edges,
until a page reports hasNextPage = false.  The loop always consumes at
least one page when one is available (do/while). -/
def fetchAllPages {α : Type} : List (Page α) → List α
  | [] => []
  | p :: ps => p.edges ++ (if p.hasNextPage then fetchAllPages ps else [])

/-! ## Persist-loop environment

Each record of the second (persist) pass performs one destination
createRecord POST whose outcome is either a transport-level rejection
(the promise rejects, caught by the per-record catch) or a completed HTTP
response carrying a success flag that the source never inspects.  The
periodic checkpoint PATCH may itself succeed or fail; a failed mid-loop
checkpoint throws inside the same try and is caught by the same catch. -/

/-- Outcome of one destination createRecord call. -/
inductive PersistOutcome where
  | rejected : PersistOutcome
  | completed (ok : Bool) : PersistOutcome
deriving DecidableEq, Repr

/-- Whether the call was a transport-level rejection. -/
def isRejected : PersistOutcome → Bool
  | PersistOutcome.rejected => true
  | PersistOutcome.completed _ => false

/-- A progress checkpoint reported to the destination: the stage total and
the running processed count. -/
structure Checkpoint where
  total : Nat
  processed : Nat
deriving DecidableEq, Repr

/-- One iteration of a persist loop: the (possibly null) fetched node,
the outcome the destination would give the createRecord call of this
iteration, and whether the checkpoint PATCH of this iteration, if one is
attempted, succeeds. -/
structure Iter (ν : Type) where
  node : Option ν
  create : PersistOutcome
  upd : Bool
deriving DecidableEq, Repr

/-! ## Customers stage (syncCustomers, src/server.js lines 241-367) -/

/-- The defaultAddress sub-object of a customer node. -/
structure Address where
  city : Option String
  country : Option String
  province : Option String
deriving DecidableEq, Repr

/-- A raw customer node as returned by the source API. -/
structure CustomerNode where
  id : Option String
  firstName : Option String
  lastName : Option String
  email : Option String
  phone : Option String
  updatedAt : Option String
  defaultAddress : Option Address
deriving DecidableEq, Repr

/-- The location sub-object of a destination customer record. -/
structure LocationData where
  city : Option String
  country : Option String
  timezone : Option String
  state : Option String
deriving DecidableEq, Repr

/-- A destination customer record. -/
structure CustomerData where
  account_id : String
  integration_id : String
  customer_id : String
  platform : String
  full_name : String
  email : Option String
  phone : Option String
  total_value : Rat
  last_activity : Option String
  status : String
  engagement_score : Nat
  location : Option LocationData
deriving DecidableEq, Repr

/-- The customer transform: the body of the persist loop that builds
customerData from one raw node. -/
def customerTransform (accountId integrationId : String) (c : CustomerNode) : CustomerData :=
  { account_id := accountId
    integration_id := integrationId
    customer_id := lastSegment (c.id.getD "")
    platform := "Shopify"
    full_name := ((c.firstName.getD "") ++ " " ++ (c.lastName.getD "")).trim
    email := c.email
    phone := c.phone
    total_value := 0
    last_activity := c.updatedAt
    status := "new"
    engagement_score := 10
    location := c.defaultAddress.map fun a =>
      { city := a.city, country := a.country, timezone := none, state := a.province } }

/-- The skip test of the customers persist loop: continue when the edge has
no node or the node has no (or an empty, hence falsy) id. -/
def customerSkip : Option CustomerNode → Bool
  | none => true
  | some c =>
    match c.id with
    | none => true
    | some s => s == ""

/-- An iteration persists a record when its node is not skipped and its
createRecord call is not a transport-level rejection (the HTTP status of a
completed call is never inspected). -/
def custSuccess (it : Iter CustomerNode) : Bool :=
  !customerSkip it.node && !isRejected it.create

/-- The persist loop of syncCustomers.  State: the running totalSynced
count.  Returns the final count, the checkpoints attempted inside the loop
(each carrying the stage total and the running count), and the number of
errors caught and logged by the per-record catch.  A rejected create is
caught before the count is incremented; a completed create increments the
count and, when the count is a multiple of 100 or the record is the last
one, attempts a checkpoint whose own failure is caught after the increment. -/
def custLoop (total : Nat) : List (Iter CustomerNode) → Nat → Nat × List Checkpoint × Nat
  | [], synced => (synced, [], 0)
  | it :: rest, synced =>
    if customerSkip it.node then custLoop total rest synced
    else
      match it.create with
      | PersistOutcome.rejected =>
        let r := custLoop total rest synced
        (r.1, r.2.1, r.2.2 + 1)
      | PersistOutcome.completed _ =>
        let s := synced + 1
        let r := custLoop total rest s
        if s % 100 = 0 ∨ rest = [] then
          (r.1, Checkpoint.mk total s :: r.2.1, r.2.2 + (if it.upd then 0 else 1))
        else
          (r.1, r.2.1, r.2.2)

/-- The persist phase of syncCustomers: first the unconditional initial
checkpoint reporting total and processed = 0, which is not guarded by any
try/catch, then the per-record loop.  A failing initial checkpoint makes
updateIntegration throw and the whole stage aborts. -/
def syncCustomersPersist (l : List (Iter CustomerNode)) (updOk0 : Bool) :
    Except Unit (Nat × List Checkpoint × Nat) :=
  if updOk0 then
    let r := custLoop l.length l 0
    Except.ok (r.1, Checkpoint.mk l.length 0 :: r.2.1, r.2.2)
  else Except.error ()

instance : Inhabited (Iter CustomerNode) :=
  ⟨⟨none, PersistOutcome.rejected, true⟩⟩

/-- The checkpoint the cadence rule expects at position i of the loop, if
any: position i must hold a successfully persisted record, and the number s
of successes up to and including i (offset by the count base) must be a
multiple of 100, or i must be the last position; the checkpoint carries s. -/
def ckptAt (total base : Nat) (l : List (Iter CustomerNode)) (i : Nat) : Option Checkpoint :=
  if custSuccess (l.getD i default) ∧
      ((base + (l.take (i + 1)).countP custSuccess) % 100 = 0 ∨ i = l.length - 1)
  then some (Checkpoint.mk total (base + (l.take (i + 1)).countP custSuccess)) else none

/-- Checkpoint schedule stated independently of the loop, following the
amended cadence rule: the expected checkpoints of all positions, in
position order. -/
def expCkpts (total base : Nat) (l : List (Iter CustomerNode)) : List Checkpoint :=
  (List.range l.length).filterMap (ckptAt total base l)

/-- The part of an iteration the loop control actually inspects: the node
(for the skip test and the record payload position) and whether the create
call was a transport-level rejection.  The HTTP status of a completed call
and the fate of a checkpoint PATCH are not part of it. -/
def iterShape (it : Iter CustomerNode) : Option CustomerNode × Bool :=
  (it.node, isRejected it.create)

/-! ## Orders stage (syncOrders, src/server.js lines 370-492) -/

/-- The shopMoney sub-object of a money set. -/
structure ShopMoney where
  amount : Option String
deriving DecidableEq, Repr

/-- A money set as returned by the source API. -/
structure MoneySet where
  shopMoney : Option ShopMoney
deriving DecidableEq, Repr

/-- The customer reference of an order node. -/
structure CustomerRef where
  id : String
  email : Option String
deriving DecidableEq, Repr

/-- A raw line item node of an order. -/
structure LineItemNode where
  title : String
  quantity : Nat
  originalTotalSet : Option MoneySet
deriving DecidableEq, Repr

/-- A raw order node as returned by the source API. -/
structure OrderNode where
  id : Option String
  name : String
  createdAt : String
  totalPriceSet : Option MoneySet
  customer : Option CustomerRef
  lineItems : List LineItemNode
deriving DecidableEq, Repr

/-- A transformed line item of an interaction record. -/
structure LineItem where
  title : String
  quantity : Nat
  price : JNum
deriving DecidableEq, Repr

/-- A destination interaction record. -/
structure InteractionData where
  account_id : String
  integration_id : String
  customer_id : String
  interaction_type : String
  platform : String
  title : String
  description : String
  value : JNum
  outcome : String
  interaction_date : String
  order_id : String
  order_name : String
  line_items : List LineItem
deriving DecidableEq, Repr

/-- Transforming one line item reads originalTotalSet.shopMoney.amount with
no optional chaining: a missing originalTotalSet or a missing shopMoney is a
thrown TypeError (modelled as the error case), while a missing amount only
makes parseFloat return NaN. -/
def mapLineItem (li : LineItemNode) : Except Unit LineItem :=
  match li.originalTotalSet with
  | none => Except.error ()
  | some ms =>
    match ms.shopMoney with
    | none => Except.error ()
    | some sm =>
      Except.ok { title := li.title, quantity := li.quantity, price := parseFloatOpt sm.amount }

/-- The line items map call: items are transformed left to right and the
first TypeError escapes. -/
def mapLineItems : List LineItemNode → Except Unit (List LineItem)
  | [] => Except.ok []
  | li :: rest =>
    match mapLineItem li with
    | Except.error e => Except.error e
    | Except.ok x =>
      match mapLineItems rest with
      | Except.error e => Except.error e
      | Except.ok xs => Except.ok (x :: xs)

/-- Whether transforming this line item throws: originalTotalSet missing, or
shopMoney missing inside it. -/
def badLine (li : LineItemNode) : Bool :=
  match li.originalTotalSet with
  | none => true
  | some ms => ms.shopMoney.isNone

/-- The interaction value: the order total price amount read through
optional chaining, with a falsy result replaced by 0 before parseFloat. -/
def orderValue (tps : Option MoneySet) : JNum :=
  match (tps.bind MoneySet.shopMoney).bind ShopMoney.amount with
  | none => JNum.val 0
  | some s => if s = "" then JNum.val 0 else parseFloat s

/-- The human-readable description listing quantity and title for every
line item, comma-joined. -/
def describeItems (lis : List LineItem) : String :=
  "Online store purchase with " ++ toString lis.length ++ " item(s): " ++
    String.intercalate ", " (lis.map fun li => toString li.quantity ++ "x " ++ li.title) ++ "."

/-- The interaction record built from one order node and its mapped
line items. -/
def mkInteraction (accountId integrationId : String) (o : OrderNode) (cust : CustomerRef)
    (lis : List LineItem) : InteractionData :=
  { account_id := accountId
    integration_id := integrationId
    customer_id := lastSegment cust.id
    interaction_type := "purchase"
    platform := "Shopify"
    title := "Shopify Order " ++ o.name
    description := describeItems lis
    value := orderValue o.totalPriceSet
    outcome := "positive"
    interaction_date := o.createdAt
    order_id := lastSegment (o.id.getD "")
    order_name := o.name
    line_items := lis }

/-- What one iteration of the orders persist loop does with its node before
the createRecord call: skip (missing node, missing or falsy id, or missing
customer), throw a TypeError while mapping line items, or produce the
interaction record. -/
inductive OrderStep where
  | skipped : OrderStep
  | typeError : OrderStep
  | record (r : InteractionData) : OrderStep
deriving DecidableEq, Repr

/-- Per-order processing of syncOrders up to the createRecord call. -/
def processOrder (accountId integrationId : String) (n : Option OrderNode) : OrderStep :=
  match n with
  | none => OrderStep.skipped
  | some o =>
    match o.id, o.customer with
    | some oid, some cust =>
      if oid = "" then OrderStep.skipped
      else
        match mapLineItems o.lineItems with
        | Except.error _ => OrderStep.typeError
        | Except.ok lis => OrderStep.record (mkInteraction accountId integrationId o cust lis)
    | _, _ => OrderStep.skipped

/-- The persist loop of syncOrders.  A skipped node contributes nothing; a
TypeError escapes the loop (the per-record try begins only at the create
call) and aborts the stage; otherwise the record is POSTed, the count is
incremented unless the call was rejected, and the checkpoint cadence is the
same as for customers.  Returns the final count, the checkpoints attempted
and the records for which a create call was issued. -/
def ordersLoop (accountId integrationId : String) (total : Nat) :
    List (Iter OrderNode) → Nat → Except Unit (Nat × List Checkpoint × List InteractionData)
  | [], synced => Except.ok (synced, [], [])
  | it :: rest, synced =>
    match processOrder accountId integrationId it.node with
    | OrderStep.skipped => ordersLoop accountId integrationId total rest synced
    | OrderStep.typeError => Except.error ()
    | OrderStep.record r =>
      match it.create with
      | PersistOutcome.rejected =>
        (ordersLoop accountId integrationId total rest synced).map fun t =>
          (t.1, t.2.1, r :: t.2.2)
      | PersistOutcome.completed _ =>
        (ordersLoop accountId integrationId total rest (synced + 1)).map fun t =>
          if (synced + 1) % 100 = 0 ∨ rest = [] then
            (t.1, Checkpoint.mk total (synced + 1) :: t.2.1, r :: t.2.2)
          else (t.1, t.2.1, r :: t.2.2)

/-- Projection of an orders stage result onto the data the order-skip claim
speaks about: the synced count and the records attempted (checkpoints are
governed by the cadence claim instead). -/
def ordersCountRecords (e : Except Unit (Nat × List Checkpoint × List InteractionData)) :
    Except Unit (Nat × List InteractionData) :=
  e.map fun t => (t.1, t.2.2)

/-! ## Products stage (syncProducts, src/server.js lines 495-622) -/

/-- A raw product variant node. -/
structure VariantNode where
  price : String
  compareAtPrice : Option String
  inventoryQuantity : Option Int
deriving DecidableEq, Repr

/-- A raw product node as returned by the source API.  The images field
holds the url list of images.nodes when the images object is present. -/
structure ProductNode where
  id : Option String
  title : String
  description : Option String
  vendor : String
  productType : String
  status : String
  tags : Option (List String)
  images : Option (List String)
  variants : List VariantNode
  variantsCount : Nat
deriving DecidableEq, Repr

/-- A destination product record. -/
structure ProductData where
  account_id : String
  integration_id : String
  product_id : String
  title : String
  description : String
  vendor : String
  product_type : String
  price : JNum
  compare_at_price : JNum
  inventory_quantity : Int
  platform : String
  status : String
  tags : List String
  images : List String
  variants_count : Nat
deriving DecidableEq, Repr

/-- The productData object literal built when the images object is present
(urls being the image URLs).  Price data comes from the first entry of
variants.nodes; tags defaults to the empty list when absent. -/
def productRecord (accountId integrationId : String) (p : ProductNode)
    (urls : List String) : ProductData :=
  { account_id := accountId
    integration_id := integrationId
    product_id := lastSegment (p.id.getD "")
    title := p.title
    description := p.description.getD ""
    vendor := p.vendor
    product_type := p.productType
    price :=
      match p.variants.head? with
      | some v => parseFloat v.price
      | none => JNum.val 0
    compare_at_price :=
      match p.variants.head? with
      | some v =>
        match v.compareAtPrice with
        | none => JNum.val 0
        | some s => if s = "" then JNum.val 0 else parseFloat s
      | none => JNum.val 0
    inventory_quantity :=
      match p.variants.head? with
      | some v => v.inventoryQuantity.getD 0
      | none => 0
    platform := "Shopify"
    status := p.status.toLower
    tags := p.tags.getD []
    images := urls
    variants_count := p.variantsCount }

/-- The product transform.  Mapping images.nodes throws a TypeError when the
images object is absent, which is modelled as the error case; otherwise the
productData literal is built. -/
def productTransform (accountId integrationId : String) (p : ProductNode) :
    Except Unit ProductData :=
  match p.images with
  | none => Except.error ()
  | some urls => Except.ok (productRecord accountId integrationId p urls)

/-! ## Aggregation pass (updateCustomerTotals, src/server.js lines 625-681) -/

/-- A purchase interaction as loaded back from the destination store. -/
structure StoredInteraction where
  customer_id : String
  value : Rat
deriving DecidableEq, Repr

/-- A customer as loaded back from the destination store. -/
structure StoredCustomer where
  id : String
  customer_id : String
deriving DecidableEq, Repr

/-- One step of the forEach that builds customerTotals: an interaction
contributes only when both its customer_id and its value are truthy. -/
def totalsStep (m : String → Option Rat) (i : StoredInteraction) : String → Option Rat :=
  if i.customer_id ≠ "" ∧ i.value ≠ 0 then
    fun k => if k = i.customer_id then some ((m i.customer_id).getD 0 + i.value) else m k
  else m

/-- The customerTotals mapping built over the loaded interactions; a key
absent from the object is none. -/
def customerTotals (l : List StoredInteraction) : String → Option Rat :=
  l.foldl totalsStep (fun _ => none)

/-- The total looked up for one customer, with a missing entry read as 0. -/
def totalFor (l : List StoredInteraction) (k : String) : Rat :=
  (customerTotals l k).getD 0

/-- The patch calls issued by the update loop: one per customer whose total
exceeds zero, setting total_value to that total. -/
def patchedCustomers (customers : List StoredCustomer) (l : List StoredInteraction) :
    List (String × Rat) :=
  customers.filterMap fun c =>
    let t := totalFor l c.customer_id
    if 0 < t then some (c.id, t) else none

/-! ## Concrete inputs used by counterexamples and witnesses -/

/-- Attempt outcomes whose first attempt returns non-throttled API errors
and whose later attempts succeed. -/
def apiErrorThenSuccess : Nat → FetchOutcome :=
  fun n => if n = 0 then FetchOutcome.apiErrors false else FetchOutcome.success

/-- Attempt outcomes that always fail at the transport level. -/
def alwaysNetError : Nat → FetchOutcome :=
  fun _ => FetchOutcome.netError

/-- A well-formed customer node. -/
def cGood : CustomerNode :=
  { id := some "gid://shopify/Customer/77"
    firstName := some "Ana"
    lastName := none
    email := some "ana@example.com"
    phone := none
    updatedAt := some "2024-01-01"
    defaultAddress := none }

/-- An order whose only line item carries a shopMoney object without an
amount, and whose order-level total price set is absent. -/
def oAmountless : OrderNode :=
  { id := some "gid://shopify/Order/42"
    name := "#1001"
    createdAt := "2024-01-01"
    totalPriceSet := none
    customer := some { id := "gid://shopify/Customer/77", email := none }
    lineItems := [{ title := "Widget", quantity := 1,
                    originalTotalSet := some { shopMoney := some { amount := none } } }] }

/-- An order without an associated customer. -/
def oNoCust : OrderNode :=
  { id := some "gid://shopify/Order/9"
    name := "#9"
    createdAt := "2024-01-02"
    totalPriceSet := some { shopMoney := some { amount := some "25" } }
    customer := none
    lineItems := [{ title := "Gadget", quantity := 2,
                    originalTotalSet := some { shopMoney := some { amount := some "25" } } }] }

/-- An order with a customer whose only line item lacks originalTotalSet. -/
def oBadItem : OrderNode :=
  { id := some "gid://shopify/Order/43"
    name := "#1002"
    createdAt := "2024-01-03"
    totalPriceSet := some { shopMoney := some { amount := some "7" } }
    customer := some { id := "gid://shopify/Customer/77", email := none }
    lineItems := [{ title := "W", quantity := 1, originalTotalSet := none }] }

/-- A product node whose images object is absent and whose tags are absent. -/
def pNoImages : ProductNode :=
  { id := some "gid://shopify/Product/5"
    title := "Mug"
    description := none
    vendor := "Acme"
    productType := "Kitchen"
    status := "ACTIVE"
    tags := none
    images := none
    variants := [{ price := "10", compareAtPrice := none, inventoryQuantity := some 3 }]
    variantsCount := 1 }

/-- The same product node with a present images object holding one url. -/
def pImg : ProductNode :=
  { pNoImages with images := some ["https://cdn.example/mug.png"] }

/-- The interaction list of the aggregation example in the specification. -/
def exInteractions : List StoredInteraction :=
  [{ customer_id := "c1", value := 10 },
   { customer_id := "c1", value := 5 },
   { customer_id := "c2", value := 0 }]

/-! ## Theorems: retry loop -/

theorem queryGo_success (outcomes : Nat → FetchOutcome) (retries attempt : Nat)
    (h : outcomes attempt = FetchOutcome.success) :
    queryGo outcomes retries attempt = (QueryResult.ok attempt, []) := by
  rw [queryGo, if_pos h]

theorem queryGo_fail_retry (outcomes : Nat → FetchOutcome) (retries attempt : Nat)
    (hf : outcomes attempt ≠ FetchOutcome.success) (hlt : attempt < retries) :
    queryGo outcomes retries attempt =
      ((queryGo outcomes retries (attempt + 1)).1,
        2 ^ (attempt + 1) * 1000 :: (queryGo outcomes retries (attempt + 1)).2) := by
  rw [queryGo, if_neg hf, dif_pos hlt]

theorem queryGo_fail_last (outcomes : Nat → FetchOutcome) (retries attempt : Nat)
    (hf : outcomes attempt ≠ FetchOutcome.success) (hge : ¬ attempt < retries) :
    queryGo outcomes retries attempt = (QueryResult.fatal attempt, []) := by
  rw [queryGo, if_neg hf, dif_neg hge]

theorem queryGo_index_le_aux (outcomes : Nat → FetchOutcome) (retries : Nat) :
    ∀ d attempt, retries - attempt = d → attempt ≤ retries →
      attemptsUsed (queryGo outcomes retries attempt).1 ≤ retries + 1 := by
  intro d
  induction d with
  | zero =>
    intro a hd ha
    by_cases hs : outcomes a = FetchOutcome.success
    · rw [queryGo_success outcomes retries a hs]
      simpa [attemptsUsed] using Nat.succ_le_succ ha
    · have hge : ¬ a < retries := by omega
      rw [queryGo_fail_last outcomes retries a hs hge]
      simpa [attemptsUsed] using Nat.succ_le_succ ha
  | succ d ih =>
    intro a hd ha
    have hlt : a < retries := by omega
    by_cases hs : outcomes a = FetchOutcome.success
    · rw [queryGo_success outcomes retries a hs]
      simpa [attemptsUsed] using Nat.succ_le_succ ha
    · rw [queryGo_fail_retry outcomes retries a hs hlt]
      exact ih (a + 1) (by omega) (by omega)

theorem queryGo_index_le (outcomes : Nat → FetchOutcome) (retries : Nat) :
    attemptsUsed (shopifyGraphQLQuery outcomes retries).1 ≤ retries + 1 :=
  queryGo_index_le_aux outcomes retries (retries - 0) 0 rfl (Nat.zero_le retries)

/-- Claim C1, counterexample: with a payload carrying only non-throttled
API-level errors on attempt 0 and success afterwards, the fetcher does not
fail immediately: it waits 2000 ms, performs attempt 1 and succeeds, so two
attempts are performed instead of the single one the claim allows. -/
theorem c1_counterexample :
    shopifyGraphQLQuery apiErrorThenSuccess 3 = (QueryResult.ok 1, [2000]) ∧
    attemptsUsed (shopifyGraphQLQuery apiErrorThenSuccess 3).1 = 2 := by
  have e0 := queryGo_fail_retry apiErrorThenSuccess 3 0 (by decide) (by omega)
  have e1 := queryGo_success apiErrorThenSuccess 3 1 rfl
  rw [shopifyGraphQLQuery, e0, e1]
  exact ⟨rfl, rfl⟩

/-- Claim C1 (amended): an API-level error whose payload contains no
throttling error takes the same backoff-and-retry path as a throttled one,
consuming one retry with delay 2^(attempt+1) seconds; it is fatal (and
aborts the stage) only when it happens on the last allowed attempt. -/
theorem c1_amended_api_errors_retry :
    (∀ (outcomes : Nat → FetchOutcome) (retries attempt : Nat) (t : Bool),
      outcomes attempt = FetchOutcome.apiErrors t → attempt < retries →
        queryGo outcomes retries attempt =
          ((queryGo outcomes retries (attempt + 1)).1,
            2 ^ (attempt + 1) * 1000 :: (queryGo outcomes retries (attempt + 1)).2)) ∧
    (∀ (outcomes : Nat → FetchOutcome) (retries attempt : Nat) (t : Bool),
      outcomes attempt = FetchOutcome.apiErrors t → ¬ attempt < retries →
        queryGo outcomes retries attempt = (QueryResult.fatal attempt, [])) := by
  constructor
  · intro outcomes retries attempt t ho hlt
    have hne : outcomes attempt ≠ FetchOutcome.success := by rw [ho]; simp
    exact queryGo_fail_retry outcomes retries attempt hne hlt
  · intro outcomes retries attempt t ho hge
    have hne : outcomes attempt ≠ FetchOutcome.success := by rw [ho]; simp
    exact queryGo_fail_last outcomes retries attempt hne hge

/-- Witness for the amended C1 at a concrete input. -/
theorem c1_amended_witness :
    queryGo apiErrorThenSuccess 3 0 =
      ((queryGo apiErrorThenSuccess 3 1).1, 2000 :: (queryGo apiErrorThenSuccess 3 1).2) :=
  c1_amended_api_errors_retry.1 apiErrorThenSuccess 3 0 false rfl (by omega)

/-- Claim C3: with the default of 3 retries, at most 4 attempts are ever
performed; a fetch that fails on every attempt is re-thrown as fatal exactly
on attempt 3 (directly after the last allowed retry) having waited the
backoff delays 2^1, 2^2, 2^3 seconds; and in general every retried failure
at attempt a waits exactly 2^(a+1) seconds before the next attempt. -/
theorem c3_retry_ceiling :
    (∀ outcomes : Nat → FetchOutcome,
      attemptsUsed (shopifyGraphQLQuery outcomes 3).1 ≤ 4) ∧
    (∀ outcomes : Nat → FetchOutcome,
      (∀ a, outcomes a ≠ FetchOutcome.success) →
        shopifyGraphQLQuery outcomes 3 = (QueryResult.fatal 3, [2000, 4000, 8000])) ∧
    (∀ (outcomes : Nat → FetchOutcome) (retries attempt : Nat),
      outcomes attempt ≠ FetchOutcome.success → attempt < retries →
        (queryGo outcomes retries attempt).2 =
          2 ^ (attempt + 1) * 1000 :: (queryGo outcomes retries (attempt + 1)).2) := by
  refine ⟨fun outcomes => queryGo_index_le outcomes 3, ?_, ?_⟩
  · intro outcomes h
    have e0 := queryGo_fail_retry outcomes 3 0 (h 0) (by omega)
    have e1 := queryGo_fail_retry outcomes 3 1 (h 1) (by omega)
    have e2 := queryGo_fail_retry outcomes 3 2 (h 2) (by omega)
    have e3 := queryGo_fail_last outcomes 3 3 (h 3) (by omega)
    rw [shopifyGraphQLQuery, e0, e1, e2, e3]
    rfl
  · intro outcomes retries attempt hf hlt
    rw [queryGo_fail_retry outcomes retries attempt hf hlt]

/-- Witness for C3 at a concrete input: a permanently failing transport. -/
theorem c3_witness :
    shopifyGraphQLQuery alwaysNetError 3 = (QueryResult.fatal 3, [2000, 4000, 8000]) :=
  c3_retry_ceiling.2.1 alwaysNetError (fun _ h => FetchOutcome.noConfusion h)

/-! ## Theorems: pagination -/

theorem fetchAllPages_append {α : Type} (ps : List (Page α)) (lastP : Page α)
    (rest : List (Page α)) (hps : ∀ p ∈ ps, p.hasNextPage = true)
    (hlast : lastP.hasNextPage = false) :
    fetchAllPages (ps ++ lastP :: rest) = (ps.map Page.edges).flatten ++ lastP.edges := by
  induction ps with
  | nil => simp [fetchAllPages, hlast]
  | cons p ps ih =>
    have hp : p.hasNextPage = true := hps p (List.mem_cons_self p ps)
    have ihr := ih (fun q hq => hps q (List.mem_cons_of_mem p hq))
    simp [fetchAllPages, hp, ihr]

/-- Claim C4: across any pagination sequence, the accumulated list is the
concatenation of the per-page edges in page order, its length is the sum of
the per-page edge counts, and the loop consumes pages exactly up to the
first page reporting hasNextPage = false: pages after it are never
requested. -/
theorem c4_pagination {α : Type} :
    ∀ (ps : List (Page α)) (lastP : Page α) (rest : List (Page α)),
      (∀ p ∈ ps, p.hasNextPage = true) → lastP.hasNextPage = false →
        fetchAllPages (ps ++ lastP :: rest) = (ps.map Page.edges).flatten ++ lastP.edges ∧
        (fetchAllPages (ps ++ lastP :: rest)).length =
          (ps.map fun p => p.edges.length).sum + lastP.edges.length := by
  intro ps lastP rest hps hlast
  have h := fetchAllPages_append ps lastP rest hps hlast
  refine ⟨h, ?_⟩
  rw [h]
  simp only [List.length_append, List.length_flatten, List.map_map]
  rfl

/-- Witness for C4 at a concrete input: two consumed pages and one page
beyond the stopping point. -/
theorem c4_witness :
    fetchAllPages ([⟨[1, 2], true, some "a"⟩] ++ (⟨[3], false, none⟩ : Page Nat) :: [⟨[9], true, none⟩]) =
      ([(⟨[1, 2], true, some "a"⟩ : Page Nat)].map Page.edges).flatten ++ [3] :=
  (c4_pagination [⟨[1, 2], true, some "a"⟩] ⟨[3], false, none⟩ [⟨[9], true, none⟩]
    (by intro p hp; simp at hp; rw [hp]) rfl).1

/-! ## Theorems: customers persist loop -/

theorem custLoop_cons_skip (total synced : Nat) (it : Iter CustomerNode)
    (rest : List (Iter CustomerNode)) (hsk : customerSkip it.node = true) :
    custLoop total (it :: rest) synced = custLoop total rest synced := by
  simp [custLoop, hsk]

theorem custLoop_cons_rejected (total synced : Nat) (it : Iter CustomerNode)
    (rest : List (Iter CustomerNode)) (hsk : customerSkip it.node = false)
    (hc : it.create = PersistOutcome.rejected) :
    custLoop total (it :: rest) synced =
      ((custLoop total rest synced).1, (custLoop total rest synced).2.1,
        (custLoop total rest synced).2.2 + 1) := by
  simp [custLoop, hsk, hc]

theorem custLoop_cons_completed (total synced : Nat) (it : Iter CustomerNode)
    (rest : List (Iter CustomerNode)) (b : Bool) (hsk : customerSkip it.node = false)
    (hc : it.create = PersistOutcome.completed b) :
    custLoop total (it :: rest) synced =
      if (synced + 1) % 100 = 0 ∨ rest = [] then
        ((custLoop total rest (synced + 1)).1,
          Checkpoint.mk total (synced + 1) :: (custLoop total rest (synced + 1)).2.1,
          (custLoop total rest (synced + 1)).2.2 + (if it.upd then 0 else 1))
      else
        ((custLoop total rest (synced + 1)).1, (custLoop total rest (synced + 1)).2.1,
          (custLoop total rest (synced + 1)).2.2) := by
  simp [custLoop, hsk, hc]

theorem custSuccess_false_of_skip (it : Iter CustomerNode)
    (hsk : customerSkip it.node = true) : custSuccess it = false := by
  simp [custSuccess, hsk]

theorem custSuccess_false_of_rejected (it : Iter CustomerNode)
    (hc : it.create = PersistOutcome.rejected) : custSuccess it = false := by
  simp [custSuccess, hc, isRejected]

theorem custSuccess_true (it : Iter CustomerNode) (b : Bool)
    (hsk : customerSkip it.node = false) (hc : it.create = PersistOutcome.completed b) :
    custSuccess it = true := by
  simp [custSuccess, hsk, hc, isRejected]

theorem custLoop_count (total : Nat) (l : List (Iter CustomerNode)) :
    ∀ synced, (custLoop total l synced).1 = synced + l.countP custSuccess := by
  induction l with
  | nil => intro synced; simp [custLoop]
  | cons it rest ih =>
    intro synced
    by_cases hsk : customerSkip it.node = true
    · rw [custLoop_cons_skip total synced it rest hsk]
      simp [ih synced, List.countP_cons, custSuccess_false_of_skip it hsk]
    · have hsk' : customerSkip it.node = false := by simpa using hsk
      cases hc : it.create with
      | rejected =>
        rw [custLoop_cons_rejected total synced it rest hsk' hc]
        simp [ih synced, List.countP_cons, custSuccess_false_of_rejected it hc]
      | completed b =>
        rw [custLoop_cons_completed total synced it rest b hsk' hc]
        rcases Decidable.em ((synced + 1) % 100 = 0 ∨ rest = []) with hcond | hcond
        · rw [if_pos hcond]
          simp [ih (synced + 1), List.countP_cons, custSuccess_true it b hsk' hc]
          omega
        · rw [if_neg hcond]
          simp [ih (synced + 1), List.countP_cons, custSuccess_true it b hsk' hc]
          omega

theorem ckptAt_cons_zero_pos (total base : Nat) (it : Iter CustomerNode)
    (rest : List (Iter CustomerNode)) (hcs : custSuccess it = true) :
    ckptAt total base (it :: rest) 0 =
      if (base + 1) % 100 = 0 ∨ rest = [] then some (Checkpoint.mk total (base + 1))
      else none := by
  have h0 : ((0 : Nat) = rest.length) ↔ rest = [] :=
    ⟨fun h => List.length_eq_zero.mp h.symm, fun h => by simp [h]⟩
  have hc : List.countP custSuccess (List.take (0 + 1) (it :: rest)) = 1 := by
    rw [List.take_succ_cons, List.take_zero, List.countP_cons, List.countP_nil, hcs]
    simp
  unfold ckptAt
  rw [List.getD_cons_zero, hc]
  simp [hcs, h0]

theorem ckptAt_cons_zero_neg (total base : Nat) (it : Iter CustomerNode)
    (rest : List (Iter CustomerNode)) (hcs : custSuccess it = false) :
    ckptAt total base (it :: rest) 0 = none := by
  unfold ckptAt
  rw [List.getD_cons_zero]
  simp [hcs]

theorem ckptAt_cons_succ_pos (total base : Nat) (it : Iter CustomerNode)
    (rest : List (Iter CustomerNode)) (i : Nat) (hcs : custSuccess it = true)
    (hilt : i < rest.length) :
    ckptAt total base (it :: rest) (i + 1) = ckptAt total (base + 1) rest i := by
  have hcount : List.countP custSuccess (List.take (i + 1 + 1) (it :: rest)) =
      List.countP custSuccess (List.take (i + 1) rest) + 1 := by
    rw [List.take_succ_cons, List.countP_cons, hcs]
    simp
  have hidx : (i + 1 = (it :: rest).length - 1) ↔ (i = rest.length - 1) := by
    simp only [List.length_cons, Nat.add_sub_cancel]
    omega
  have harith : base + (List.countP custSuccess (List.take (i + 1) rest) + 1) =
      base + 1 + List.countP custSuccess (List.take (i + 1) rest) := by omega
  unfold ckptAt
  rw [List.getD_cons_succ]
  simp only [hcount, harith, hidx]

theorem ckptAt_cons_succ_neg (total base : Nat) (it : Iter CustomerNode)
    (rest : List (Iter CustomerNode)) (i : Nat) (hcs : custSuccess it = false)
    (hilt : i < rest.length) :
    ckptAt total base (it :: rest) (i + 1) = ckptAt total base rest i := by
  have hcount : List.countP custSuccess (List.take (i + 1 + 1) (it :: rest)) =
      List.countP custSuccess (List.take (i + 1) rest) := by
    rw [List.take_succ_cons, List.countP_cons, hcs]
    simp
  have hidx : (i + 1 = (it :: rest).length - 1) ↔ (i = rest.length - 1) := by
    simp only [List.length_cons, Nat.add_sub_cancel]
    omega
  unfold ckptAt
  rw [List.getD_cons_succ]
  simp only [hcount, hidx]

theorem expCkpts_cons (total base : Nat) (it : Iter CustomerNode)
    (rest : List (Iter CustomerNode)) :
    expCkpts total base (it :: rest) =
      if custSuccess it then
        (if (base + 1) % 100 = 0 ∨ rest = [] then [Checkpoint.mk total (base + 1)] else []) ++
          expCkpts total (base + 1) rest
      else expCkpts total base rest := by
  have htail_pos : custSuccess it = true →
      List.filterMap (ckptAt total base (it :: rest) ∘ Nat.succ) (List.range rest.length) =
        List.filterMap (ckptAt total (base + 1) rest) (List.range rest.length) := by
    intro hcs
    apply List.filterMap_congr
    intro i hi
    have hilt : i < rest.length := List.mem_range.mp hi
    simpa [Function.comp, Nat.succ_eq_add_one] using
      ckptAt_cons_succ_pos total base it rest i hcs hilt
  have htail_neg : custSuccess it = false →
      List.filterMap (ckptAt total base (it :: rest) ∘ Nat.succ) (List.range rest.length) =
        List.filterMap (ckptAt total base rest) (List.range rest.length) := by
    intro hcs
    apply List.filterMap_congr
    intro i hi
    have hilt : i < rest.length := List.mem_range.mp hi
    simpa [Function.comp, Nat.succ_eq_add_one] using
      ckptAt_cons_succ_neg total base it rest i hcs hilt
  unfold expCkpts
  rw [List.length_cons, List.range_succ_eq_map, List.filterMap_cons, List.filterMap_map]
  by_cases hcs : custSuccess it = true
  · rw [ckptAt_cons_zero_pos total base it rest hcs, htail_pos hcs, if_pos hcs]
    by_cases hcond : (base + 1) % 100 = 0 ∨ rest = []
    · rw [if_pos hcond, if_pos hcond]
      rfl
    · rw [if_neg hcond, if_neg hcond]
      rfl
  · have hcs' : custSuccess it = false := by simpa using hcs
    rw [ckptAt_cons_zero_neg total base it rest hcs', htail_neg hcs', if_neg hcs]

theorem custLoop_ckpts (total : Nat) (l : List (Iter CustomerNode)) :
    ∀ base, (custLoop total l base).2.1 = expCkpts total base l := by
  induction l with
  | nil => intro base; simp [custLoop, expCkpts]
  | cons it rest ih =>
    intro base
    rw [expCkpts_cons]
    by_cases hsk : customerSkip it.node = true
    · rw [custLoop_cons_skip total base it rest hsk,
        custSuccess_false_of_skip it hsk]
      simp [ih base]
    · have hsk' : customerSkip it.node = false := by simpa using hsk
      cases hc : it.create with
      | rejected =>
        rw [custLoop_cons_rejected total base it rest hsk' hc,
          custSuccess_false_of_rejected it hc]
        simp [ih base]
      | completed b =>
        rw [custLoop_cons_completed total base it rest b hsk' hc,
          custSuccess_true it b hsk' hc]
        by_cases hcond : (base + 1) % 100 = 0 ∨ rest = []
        · rw [if_pos hcond]
          simp [hcond, ih (base + 1)]
        · rw [if_neg hcond]
          simp [hcond, ih (base + 1)]

theorem custLoop_shape (total : Nat) (l₁ : List (Iter CustomerNode)) :
    ∀ (l₂ : List (Iter CustomerNode)) (synced : Nat),
      l₁.map iterShape = l₂.map iterShape →
      (custLoop total l₁ synced).1 = (custLoop total l₂ synced).1 ∧
      (custLoop total l₁ synced).2.1 = (custLoop total l₂ synced).2.1 := by
  induction l₁ with
  | nil =>
    intro l₂ synced h
    have h2 : l₂ = [] := List.map_eq_nil_iff.mp h.symm
    subst h2
    exact ⟨rfl, rfl⟩
  | cons it rest ih =>
    intro l₂ synced h
    cases l₂ with
    | nil => simp at h
    | cons it₂ rest₂ =>
      simp only [List.map_cons, List.cons.injEq] at h
      obtain ⟨hhead, htail⟩ := h
      have hnode : it.node = it₂.node := congrArg Prod.fst hhead
      have hrej : isRejected it.create = isRejected it₂.create := by
        have := congrArg Prod.snd hhead
        simpa [iterShape] using this
      have hlen : rest.length = rest₂.length := by
        have := congrArg List.length htail
        simpa using this
      by_cases hsk : customerSkip it.node = true
      · have hsk₂ : customerSkip it₂.node = true := by rw [← hnode]; exact hsk
        rw [custLoop_cons_skip total synced it rest hsk,
          custLoop_cons_skip total synced it₂ rest₂ hsk₂]
        exact ih rest₂ synced htail
      · have hsk' : customerSkip it.node = false := by simpa using hsk
        have hsk₂ : customerSkip it₂.node = false := by rw [← hnode]; exact hsk'
        cases hc : it.create with
        | rejected =>
          have hrej1 : isRejected it₂.create = true := by rw [← hrej, hc]; rfl
          cases hc₂ : it₂.create with
          | completed b₂ =>
            rw [hc₂] at hrej1
            simp [isRejected] at hrej1
          | rejected =>
            rw [custLoop_cons_rejected total synced it rest hsk' hc,
              custLoop_cons_rejected total synced it₂ rest₂ hsk₂ hc₂]
            exact ⟨(ih rest₂ synced htail).1, (ih rest₂ synced htail).2⟩
        | completed b =>
          have hrej1 : isRejected it₂.create = false := by rw [← hrej, hc]; rfl
          cases hc₂ : it₂.create with
          | rejected =>
            rw [hc₂] at hrej1
            simp [isRejected] at hrej1
          | completed b₂ =>
            rw [custLoop_cons_completed total synced it rest b hsk' hc,
              custLoop_cons_completed total synced it₂ rest₂ b₂ hsk₂ hc₂]
            have hre : rest = [] ↔ rest₂ = [] := by
              rw [← List.length_eq_zero, ← List.length_eq_zero, hlen]
            by_cases hcond : (synced + 1) % 100 = 0 ∨ rest = []
            · have hcond₂ : (synced + 1) % 100 = 0 ∨ rest₂ = [] := by
                rcases hcond with hm | he
                · exact Or.inl hm
                · exact Or.inr (hre.mp he)
              rw [if_pos hcond, if_pos hcond₂]
              have hih := ih rest₂ (synced + 1) htail
              refine ⟨hih.1, ?_⟩
              show Checkpoint.mk total (synced + 1) :: (custLoop total rest (synced + 1)).2.1 =
                Checkpoint.mk total (synced + 1) :: (custLoop total rest₂ (synced + 1)).2.1
              rw [hih.2]
            · have hcond₂ : ¬ ((synced + 1) % 100 = 0 ∨ rest₂ = []) := by
                intro hx
                rcases hx with hm | he
                · exact hcond (Or.inl hm)
                · exact hcond (Or.inr (hre.mpr he))
              rw [if_neg hcond, if_neg hcond₂]
              exact ⟨(ih rest₂ (synced + 1) htail).1, (ih rest₂ (synced + 1) htail).2⟩

/-- Claim C2, counterexample: when the initial per-stage checkpoint (total
and processed = 0) fails, the failure is not merely logged: updateIntegration
throws outside any try/catch, the stage aborts and the record is never
processed. -/
theorem c2_counterexample :
    syncCustomersPersist [⟨some cGood, PersistOutcome.completed true, true⟩] false =
      Except.error () := rfl

/-- Claim C2 (amended): a failure of a checkpoint update issued inside the
persist loop is caught by the per-record catch and only logged: with the
initial checkpoint succeeding the stage never aborts, and the checkpoint
PATCH outcomes have no effect on the synced count or on which checkpoints
are attempted; but the initial per-stage checkpoint is not guarded, so its
failure escalates and aborts the whole stage. -/
theorem c2_amended_status_update :
    (∀ l : List (Iter CustomerNode), syncCustomersPersist l false = Except.error ()) ∧
    (∀ l : List (Iter CustomerNode), (syncCustomersPersist l true).isOk = true) ∧
    (∀ (total : Nat) (l : List (Iter CustomerNode)) (f : Iter CustomerNode → Bool) (synced : Nat),
      (custLoop total (l.map fun it => ⟨it.node, it.create, f it⟩) synced).1 =
        (custLoop total l synced).1 ∧
      (custLoop total (l.map fun it => ⟨it.node, it.create, f it⟩) synced).2.1 =
        (custLoop total l synced).2.1) := by
  refine ⟨fun l => rfl, fun l => rfl, fun total l f synced => ?_⟩
  apply custLoop_shape
  rw [List.map_map]
  rfl

/-- Claim C8, counterexample: two fetched records, the first persisted
successfully, the create call of the final record rejected.  The loop
reports no checkpoint at all: in particular no checkpoint is reported when
the final record (index N-1) is processed, although the claim demands one
unconditionally. -/
theorem c8_counterexample :
    (custLoop 2 [⟨some cGood, PersistOutcome.completed true, true⟩,
                 ⟨some cGood, PersistOutcome.rejected, true⟩] 0).2.1 = [] ∧
    (custLoop 2 [⟨some cGood, PersistOutcome.completed true, true⟩,
                 ⟨some cGood, PersistOutcome.rejected, true⟩] 0).1 = 1 :=
  ⟨rfl, rfl⟩

/-- Claim C8 (amended): during the persist loop, a checkpoint carrying the
running processed count is reported exactly at those positions holding a
successfully persisted record whose running count is a multiple of 100 or
which are the final position; a skipped or failed final record reports no
final checkpoint (skips and failures elsewhere still do not prevent the
final checkpoint). -/
theorem c8_amended_checkpoint_cadence :
    ∀ (total : Nat) (l : List (Iter CustomerNode)) (base : Nat),
      (custLoop total l base).2.1 = expCkpts total base l :=
  fun total l base => custLoop_ckpts total l base

/-- Claim C9: the HTTP status of a completed createRecord call is never
inspected: the synced count equals the number of records that are not
skipped and whose create call is not a transport-level rejection, and both
the count and the attempted checkpoints are unchanged under any change of
the success flags of completed calls (and of the checkpoint PATCH outcomes). -/
theorem c9_status_never_inspected :
    (∀ (total : Nat) (l : List (Iter CustomerNode)) (synced : Nat),
      (custLoop total l synced).1 =
        synced + l.countP fun it => !customerSkip it.node && !isRejected it.create) ∧
    (∀ (total : Nat) (l₁ l₂ : List (Iter CustomerNode)) (synced : Nat),
      l₁.map iterShape = l₂.map iterShape →
        (custLoop total l₁ synced).1 = (custLoop total l₂ synced).1 ∧
        (custLoop total l₁ synced).2.1 = (custLoop total l₂ synced).2.1) :=
  ⟨fun total l synced => custLoop_count total l synced,
   fun total l₁ l₂ synced h => custLoop_shape total l₁ l₂ synced h⟩

/-- Witness for C9 at a concrete input: a record whose create call completes
with a non-success HTTP status is counted exactly like one completing with a
success status. -/
theorem c9_witness :
    (custLoop 1 [⟨some cGood, PersistOutcome.completed false, true⟩] 0).1 =
      (custLoop 1 [⟨some cGood, PersistOutcome.completed true, true⟩] 0).1 ∧
    (custLoop 1 [⟨some cGood, PersistOutcome.completed false, true⟩] 0).2.1 =
      (custLoop 1 [⟨some cGood, PersistOutcome.completed true, true⟩] 0).2.1 :=
  c9_status_never_inspected.2 1
    [⟨some cGood, PersistOutcome.completed false, true⟩]
    [⟨some cGood, PersistOutcome.completed true, true⟩] 0 rfl

/-! ## Theorems: orders stage -/

theorem processOrder_skip_no_customer (aid iid : String) (o : OrderNode)
    (h : o.customer = none) : processOrder aid iid (some o) = OrderStep.skipped := by
  cases hid : o.id with
  | none => simp [processOrder, h, hid]
  | some oid => simp [processOrder, h, hid]

theorem mapLineItem_error_of_bad (li : LineItemNode) (hb : badLine li = true) :
    mapLineItem li = Except.error () := by
  cases hts : li.originalTotalSet with
  | none => simp [mapLineItem, hts]
  | some ms =>
    cases hsm : ms.shopMoney with
    | none => simp [mapLineItem, hts, hsm]
    | some sm =>
      exfalso
      simp [badLine, hts, hsm] at hb

theorem mapLineItems_error_of_bad (lis : List LineItemNode) (li : LineItemNode)
    (hmem : li ∈ lis) (hb : badLine li = true) : mapLineItems lis = Except.error () := by
  induction lis with
  | nil => cases hmem
  | cons hd rest ih =>
    rcases List.mem_cons.mp hmem with heq | hmem2
    · subst heq
      simp [mapLineItems, mapLineItem_error_of_bad li hb]
    · cases hhd : mapLineItem hd with
      | error e => cases e; simp [mapLineItems, hhd]
      | ok x => simp [mapLineItems, hhd, ih hmem2]

theorem ordersLoop_error_of_typeError (aid iid : String) (total : Nat) (it : Iter OrderNode)
    (hte : processOrder aid iid it.node = OrderStep.typeError) :
    ∀ (xs ys : List (Iter OrderNode)) (synced : Nat),
      ordersLoop aid iid total (xs ++ it :: ys) synced = Except.error () := by
  intro xs
  induction xs with
  | nil => intro ys synced; simp [ordersLoop, hte]
  | cons hd xs ih =>
    intro ys synced
    rw [List.cons_append]
    cases hstep : processOrder aid iid hd.node with
    | skipped =>
      simp only [ordersLoop, hstep]
      exact ih ys synced
    | typeError => simp [ordersLoop, hstep]
    | record r =>
      cases hc : hd.create with
      | rejected =>
        simp only [ordersLoop, hstep, hc]
        rw [ih ys synced]
        rfl
      | completed b =>
        simp only [ordersLoop, hstep, hc]
        rw [ih ys (synced + 1)]
        rfl

theorem ordersCountRecords_map
    (X : Except Unit (Nat × List Checkpoint × List InteractionData))
    (f : (Nat × List Checkpoint × List InteractionData) →
      (Nat × List Checkpoint × List InteractionData))
    (g : (Nat × List InteractionData) → (Nat × List InteractionData))
    (hfg : ∀ t, (f t).1 = (g (t.1, t.2.2)).1 ∧ (f t).2.2 = (g (t.1, t.2.2)).2) :
    ordersCountRecords (X.map f) = (ordersCountRecords X).map g := by
  cases X with
  | error e => rfl
  | ok t =>
    show Except.ok ((f t).1, (f t).2.2) = Except.ok (g (t.1, t.2.2))
    rw [(hfg t).1, (hfg t).2]

theorem ordersLoop_skip_removed (aid iid : String) (total : Nat) (it : Iter OrderNode)
    (hsk : processOrder aid iid it.node = OrderStep.skipped) :
    ∀ (xs ys : List (Iter OrderNode)) (synced : Nat),
      ordersCountRecords (ordersLoop aid iid total (xs ++ it :: ys) synced) =
        ordersCountRecords (ordersLoop aid iid total (xs ++ ys) synced) := by
  intro xs
  induction xs with
  | nil =>
    intro ys synced
    simp only [List.nil_append, ordersLoop, hsk]
  | cons hd xs ih =>
    intro ys synced
    rw [List.cons_append, List.cons_append]
    cases hstep : processOrder aid iid hd.node with
    | skipped =>
      simp only [ordersLoop, hstep]
      exact ih ys synced
    | typeError => simp [ordersLoop, hstep]
    | record r =>
      cases hc : hd.create with
      | rejected =>
        simp only [ordersLoop, hstep, hc]
        rw [ordersCountRecords_map (ordersLoop aid iid total (xs ++ it :: ys) synced)
            (fun t => (t.1, t.2.1, r :: t.2.2)) (fun u => (u.1, r :: u.2))
            (fun t => ⟨rfl, rfl⟩),
          ordersCountRecords_map (ordersLoop aid iid total (xs ++ ys) synced)
            (fun t => (t.1, t.2.1, r :: t.2.2)) (fun u => (u.1, r :: u.2))
            (fun t => ⟨rfl, rfl⟩),
          ih ys synced]
      | completed b =>
        simp only [ordersLoop, hstep, hc]
        rw [ordersCountRecords_map (ordersLoop aid iid total (xs ++ it :: ys) (synced + 1))
            (fun t =>
              if (synced + 1) % 100 = 0 ∨ xs ++ it :: ys = [] then
                (t.1, Checkpoint.mk total (synced + 1) :: t.2.1, r :: t.2.2)
              else (t.1, t.2.1, r :: t.2.2))
            (fun u => (u.1, r :: u.2)) (fun t => by split <;> exact ⟨rfl, rfl⟩),
          ordersCountRecords_map (ordersLoop aid iid total (xs ++ ys) (synced + 1))
            (fun t =>
              if (synced + 1) % 100 = 0 ∨ xs ++ ys = [] then
                (t.1, Checkpoint.mk total (synced + 1) :: t.2.1, r :: t.2.2)
              else (t.1, t.2.1, r :: t.2.2))
            (fun u => (u.1, r :: u.2)) (fun t => by split <;> exact ⟨rfl, rfl⟩),
          ih ys (synced + 1)]

/-- Claim C6: an order node with no associated customer is skipped entirely:
it is classified as skipped before any create call, and removing it from the
iteration sequence changes neither the stage outcome, nor the synced count,
nor the records for which a create call is issued. -/
theorem c6_order_skip :
    (∀ (aid iid : String) (o : OrderNode), o.customer = none →
      processOrder aid iid (some o) = OrderStep.skipped) ∧
    (∀ (aid iid : String) (total : Nat) (o : OrderNode) (cr : PersistOutcome) (u : Bool)
        (xs ys : List (Iter OrderNode)) (synced : Nat), o.customer = none →
      ordersCountRecords (ordersLoop aid iid total (xs ++ ⟨some o, cr, u⟩ :: ys) synced) =
        ordersCountRecords (ordersLoop aid iid total (xs ++ ys) synced)) := by
  refine ⟨fun aid iid o h => processOrder_skip_no_customer aid iid o h,
    fun aid iid total o cr u xs ys synced h => ?_⟩
  exact ordersLoop_skip_removed aid iid total ⟨some o, cr, u⟩
    (processOrder_skip_no_customer aid iid o h) xs ys synced

/-- Witness for C6 at a concrete input: the customerless order contributes
nothing to the orders stage. -/
theorem c6_witness :
    ordersCountRecords (ordersLoop "a" "i" 1
        [⟨some oNoCust, PersistOutcome.completed true, true⟩] 0) =
      ordersCountRecords (ordersLoop "a" "i" 1 [] 0) :=
  c6_order_skip.2 "a" "i" 1 oNoCust (PersistOutcome.completed true) true [] [] 0 rfl

/-- Claim C10, counterexample: an order with a customer whose line item
carries originalTotalSet.shopMoney but no amount does not raise a type
error: mapping the line items succeeds with a NaN price and the orders
stage does not abort. -/
theorem c10_counterexample :
    mapLineItems oAmountless.lineItems = Except.ok [⟨"Widget", 1, JNum.nan⟩] ∧
    (ordersLoop "a" "i" 1 [⟨some oAmountless, PersistOutcome.completed true, true⟩] 0).isOk =
      true :=
  ⟨rfl, rfl⟩

/-- Claim C10 (amended): the order transform is not total over order nodes
with a customer, but the failing shapes are one level up from the amount
leaf: a line item lacking originalTotalSet, or lacking shopMoney inside it,
raises a TypeError that escapes the per-record handling and aborts the
whole stage; a line item carrying shopMoney but lacking only the amount
yields a NaN price with no error; and a missing order-level total price
defaults the interaction value to 0. -/
theorem c10_amended_line_item_type_error :
    (∀ (aid iid : String) (o : OrderNode) (oid : String) (cust : CustomerRef)
        (li : LineItemNode),
      o.id = some oid → oid ≠ "" → o.customer = some cust → li ∈ o.lineItems →
        badLine li = true → processOrder aid iid (some o) = OrderStep.typeError) ∧
    (∀ (aid iid : String) (total : Nat) (it : Iter OrderNode) (xs ys : List (Iter OrderNode))
        (synced : Nat),
      processOrder aid iid it.node = OrderStep.typeError →
        ordersLoop aid iid total (xs ++ it :: ys) synced = Except.error ()) ∧
    (∀ (li : LineItemNode) (ms : MoneySet) (sm : ShopMoney),
      li.originalTotalSet = some ms → ms.shopMoney = some sm → sm.amount = none →
        mapLineItem li = Except.ok ⟨li.title, li.quantity, JNum.nan⟩) ∧
    (∀ tps : Option MoneySet,
      (tps.bind MoneySet.shopMoney).bind ShopMoney.amount = none →
        orderValue tps = JNum.val 0) := by
  refine ⟨?_, ?_, ?_, ?_⟩
  · intro aid iid o oid cust li hid hne hcust hmem hb
    simp [processOrder, hid, hcust, hne, mapLineItems_error_of_bad o.lineItems li hmem hb]
  · intro aid iid total it xs ys synced hte
    exact ordersLoop_error_of_typeError aid iid total it hte xs ys synced
  · intro li ms sm hts hsm ham
    simp [mapLineItem, hts, hsm, ham, parseFloatOpt]
  · intro tps h
    simp [orderValue, h]

/-- Witness for the amended C10 at a concrete input: the order whose only
line item lacks originalTotalSet makes the transform throw. -/
theorem c10_amended_witness :
    processOrder "a" "i" (some oBadItem) = OrderStep.typeError :=
  c10_amended_line_item_type_error.1 "a" "i" oBadItem "gid://shopify/Order/43"
    { id := "gid://shopify/Customer/77", email := none }
    { title := "W", quantity := 1, originalTotalSet := none }
    rfl (by decide) rfl (by simp [oBadItem]) rfl

/-! ## Theorems: product transform -/

/-- Claim C7, counterexample: a product node whose images object is absent
is not given an empty image URL list: reading images.nodes throws a
TypeError and no record is produced at all. -/
theorem c7_counterexample :
    productTransform "a" "i" pNoImages = Except.error () := rfl

/-- Claim C7 (amended): when the images object is present the transform
produces a record taking price, compare-at-price and inventory from the
first variant only (a different variant tail gives the same result), price
0 when no variant exists, a lower-cased status, tags defaulted to the empty
list when absent, and exactly the present image URLs; when the images
object is absent the transform throws instead of defaulting. -/
theorem c7_amended_product_transform :
    (∀ (aid iid : String) (p : ProductNode) (urls : List String), p.images = some urls →
      ∃ r, productTransform aid iid p = Except.ok r ∧
        r.status = p.status.toLower ∧
        r.tags = p.tags.getD [] ∧
        r.images = urls ∧
        (p.variants = [] → r.price = JNum.val 0 ∧ r.compare_at_price = JNum.val 0 ∧
          r.inventory_quantity = 0) ∧
        (∀ v vs, p.variants = v :: vs → r.price = parseFloat v.price ∧
          (∀ vs', productTransform aid iid { p with variants := v :: vs' } =
            productTransform aid iid p))) ∧
    (∀ (aid iid : String) (p : ProductNode), p.images = none →
      productTransform aid iid p = Except.error ()) := by
  constructor
  · intro aid iid p urls himg
    refine ⟨productRecord aid iid p urls, by simp [productTransform, himg], rfl, rfl, rfl,
      ?_, ?_⟩
    · intro hv
      refine ⟨?_, ?_, ?_⟩ <;> simp [productRecord, hv]
    · intro v vs hv
      constructor
      · simp [productRecord, hv]
      · intro vs'
        simp [productTransform, himg, productRecord, hv]
  · intro aid iid p himg
    simp [productTransform, himg]

/-- Witness for the amended C7 at a concrete input. -/
theorem c7_amended_witness :
    ∃ r, productTransform "a" "i" pImg = Except.ok r ∧
      r.status = pImg.status.toLower ∧
      r.tags = pImg.tags.getD [] ∧
      r.images = ["https://cdn.example/mug.png"] ∧
      (pImg.variants = [] → r.price = JNum.val 0 ∧ r.compare_at_price = JNum.val 0 ∧
        r.inventory_quantity = 0) ∧
      (∀ v vs, pImg.variants = v :: vs → r.price = parseFloat v.price ∧
        (∀ vs', productTransform "a" "i" { pImg with variants := v :: vs' } =
          productTransform "a" "i" pImg)) :=
  c7_amended_product_transform.1 "a" "i" pImg ["https://cdn.example/mug.png"] rfl

/-! ## Theorems: aggregation pass -/

theorem customerTotals_foldl (l : List StoredInteraction) :
    ∀ (m : String → Option Rat) (k : String), k ≠ "" →
      ((l.foldl totalsStep m) k).getD 0 =
        (m k).getD 0 +
          ((l.filter fun x => x.customer_id == k).map StoredInteraction.value).sum := by
  induction l with
  | nil => intro m k hk; simp
  | cons i rest ih =>
    intro m k hk
    rw [List.foldl_cons, ih (totalsStep m i) k hk]
    by_cases hg : i.customer_id ≠ "" ∧ i.value ≠ 0
    · have hstep : totalsStep m i k =
          if k = i.customer_id then some ((m i.customer_id).getD 0 + i.value) else m k := by
        unfold totalsStep
        rw [if_pos hg]
      by_cases hik : k = i.customer_id
      · rw [hstep, if_pos hik]
        have hfil : (i :: rest).filter (fun x => x.customer_id == k) =
            i :: rest.filter (fun x => x.customer_id == k) := by
          simp [List.filter_cons, hik.symm]
        rw [hfil, List.map_cons, List.sum_cons, ← hik]
        simp only [Option.getD_some]
        ring
      · rw [hstep, if_neg hik]
        have hfil : (i :: rest).filter (fun x => x.customer_id == k) =
            rest.filter (fun x => x.customer_id == k) := by
          simp [List.filter_cons]
          intro hcontra
          exact absurd hcontra.symm hik
        rw [hfil]
    · have hstep : totalsStep m i = m := by
        unfold totalsStep
        rw [if_neg hg]
      rw [hstep]
      by_cases hik : i.customer_id = k
      · have hv : i.value = 0 := by
          rcases Decidable.not_and_iff_or_not.mp hg with hc | hvv
          · exfalso
            apply hk
            rw [← hik]
            exact not_not.mp hc
          · exact not_not.mp hvv
        have hfil : (i :: rest).filter (fun x => x.customer_id == k) =
            i :: rest.filter (fun x => x.customer_id == k) := by
          simp [List.filter_cons, hik]
        rw [hfil, List.map_cons, List.sum_cons, hv]
        ring
      · have hfil : (i :: rest).filter (fun x => x.customer_id == k) =
            rest.filter (fun x => x.customer_id == k) := by
          simp [List.filter_cons]
          intro hcontra
          exact absurd hcontra hik
        rw [hfil]

/-- Claim C5: the patch loop issues one total_value patch exactly for the
customers whose computed total exceeds zero; for any nonempty key the
computed total is the sum of the values of the loaded interactions carrying
that customer_id; and on the example interaction list the totals hold 15
for c1 and no entry for c2. -/
theorem c5_aggregation :
    (∀ (cs : List StoredCustomer) (l : List StoredInteraction),
      patchedCustomers cs l =
        (cs.filter fun c => decide (0 < totalFor l c.customer_id)).map
          fun c => (c.id, totalFor l c.customer_id)) ∧
    (∀ (l : List StoredInteraction) (k : String), k ≠ "" →
      totalFor l k =
        ((l.filter fun x => x.customer_id == k).map StoredInteraction.value).sum) ∧
    (customerTotals exInteractions "c1" = some 15 ∧
      customerTotals exInteractions "c2" = none) := by
  refine ⟨?_, ?_, ?_, ?_⟩
  case refine_3 =>
    simp [customerTotals, exInteractions, totalsStep]
    norm_num
  case refine_4 =>
    simp [customerTotals, exInteractions, totalsStep]
  · intro cs l
    induction cs with
    | nil => rfl
    | cons c rest ih =>
      by_cases h : 0 < totalFor l c.customer_id
      · simp [patchedCustomers, List.filterMap_cons, List.filter_cons, h] at ih ⊢
        exact ih
      · simp [patchedCustomers, List.filterMap_cons, List.filter_cons, h] at ih ⊢
        exact ih
  · intro l k hk
    unfold totalFor customerTotals
    rw [customerTotals_foldl l (fun _ => none) k hk]
    simp

/-- Witness for C5 at a concrete input: the computed c1 total is the sum of
the c1 interaction values of the example list. -/
theorem c5_witness :
    totalFor exInteractions "c1" =
      ((exInteractions.filter fun x => x.customer_id == "c1").map
        StoredInteraction.value).sum :=
  c5_aggregation.2.1 exInteractions "c1" (by decide)
